import Mathlib

/-!
Verification development for the DeFi Guardian aggregation engine
(src/src/index.ts, portfolio-scanner version, lines 367-888).

JavaScript numbers are modelled as rationals (ℚ); `Math.round` as
floor (x + 1/2); `Math.floor` as the integer floor.  Upstream payloads
are dynamic JS objects, so every field read through optional chaining
is modelled as an `Option`.  String rendering of non-integral numbers
(`jsNumToString`) approximates JS double printing; every number the
claims render is integral, where the two agree.
-/

namespace Guardian

/-- Untyped JSON values, used for the zod input validation model and for
payload parts the code treats as opaque (`z.any()`). -/
inductive JsonVal where
  | str : String → JsonVal
  | num : ℚ → JsonVal
  | jbool : Bool → JsonVal
  | null : JsonVal
  | arr : List JsonVal → JsonVal
  | obj : List (String × JsonVal) → JsonVal

/-- One element of the `lp_positions` array of `GuardianInputSchema`. -/
structure LpInputPos where
  protocol : String
  token0_symbol : String
  token1_symbol : String
  token0_amount : ℚ
  token1_amount : ℚ
  initial_price0 : ℚ
  initial_price1 : ℚ
  entry_date : String
deriving DecidableEq

/-- The validated request, as produced by `GuardianInputSchema` (zod):
`wallet_address` any string, `chain_ids` defaulting to [1, 42161, 8453],
the two booleans defaulting to false, `lp_positions` optional.  The
schema has no `lp_entry_date` field; unknown keys are stripped. -/
structure GuardianInput where
  wallet_address : String
  chain_ids : List ℚ
  include_perps : Bool
  include_arbitrage : Bool
  lp_positions : Option (List LpInputPos)
deriving DecidableEq

/-- A lending position as consumed by the handler (dynamic upstream JSON;
the fields actually read are `protocol`, `chain_id`, `health_factor`,
`collateral_usd`). -/
structure LendingPos where
  protocol : String
  chain_id : ℚ
  health_factor : ℚ
  collateral_usd : ℚ
deriving DecidableEq

/-- Lending upstream response; every field may be absent (untyped JSON). -/
structure LendingData where
  positions : Option (List LendingPos)
  total_positions : Option ℚ
  at_risk_count : Option ℚ
deriving DecidableEq

/-- A detected LP position from the portfolio-scanner upstream.  The
handler reads the fields below; `fees_owed_0`/`fees_owed_1` absent in the
JSON behave like 0 under the truthiness test the code applies. -/
structure PortfolioPos where
  protocol : String
  token0_price_usd : ℚ
  token1_price_usd : ℚ
  token0_amount : ℚ
  token1_amount : ℚ
  fees_owed_0 : ℚ
  fees_owed_1 : ℚ
deriving DecidableEq

/-- Portfolio-scanner upstream response. -/
structure PortfolioData where
  lp_positions : Option (List PortfolioPos)
  total_portfolio_value_usd : Option ℚ
deriving DecidableEq

/-- Yield upstream response (pool descriptors are opaque `z.any()`). -/
structure YieldData where
  pools : Option (List JsonVal)
  alerts_count : Option ℚ

/-- LP impermanent-loss upstream response. -/
structure LpData where
  il_percentage : Option ℚ
  net_apr : Option ℚ
  recommendation : Option String
deriving DecidableEq

/-- The payload the handler POSTs to the LP impermanent-loss upstream. -/
structure LpRequest where
  initial_price_0 : ℚ
  initial_price_1 : ℚ
  current_price_ratio : ℚ
  amount_0 : ℚ
  amount_1 : ℚ
  fees_earned : ℚ
  days_held : ℚ
deriving DecidableEq

/-- Perps upstream response. -/
structure PerpsData where
  positions : Option (List JsonVal)

/-- Arbitrage upstream response. -/
structure ArbData where
  opportunities : Option (List JsonVal)

/-- The environment of upstream services: what each call would return.
`Absent` (a failed call) is `none`; the LP service response may depend on
the request payload. -/
structure Upstreams where
  portfolio : Option PortfolioData
  lending : Option LendingData
  yieldRes : Option YieldData
  lp : LpRequest → Option LpData
  perps : Option PerpsData
  arb : Option ArbData

/-- `lending_analysis` section of the report. -/
structure LendingAnalysis where
  positions : List LendingPos
  at_risk_count : ℚ

/-- `yield_analysis` section of the report. -/
structure YieldAnalysis where
  pools : List JsonVal
  alerts_count : ℚ

/-- `lp_analysis` section of the report. -/
structure LpAnalysis where
  il_percentage : ℚ
  net_apr : ℚ
  recommendation : String

/-- The assembled RiskReport.  The timestamp is the request instant
(milliseconds since epoch, as a rational); ISO rendering is out of
scope. -/
structure Report where
  wallet_address : String
  overall_risk_score : ℤ
  total_positions : ℚ
  critical_alerts : List String
  lending_analysis : Option LendingAnalysis
  yield_analysis : Option YieldAnalysis
  lp_analysis : Option LpAnalysis
  perps_analysis : Option (List JsonVal)
  arbitrage_opportunities : Option (List JsonVal)
  summary : String
  timestamp : ℚ

/-- The handler's result together with a trace of which upstream calls it
issued, for stating call-discipline claims. -/
structure HandlerResult where
  report : Report
  portfolioCalled : Bool
  lpCall : Option LpRequest
  perpsCalled : Bool
  arbitrageCalled : Bool

/-- JS `Math.round`: floor (x + 1/2), ties toward +infinity. -/
def jsRound (q : ℚ) : ℤ := ⌊q + 1 / 2⌋

/-- Pad a digit string with leading zeros to length `d`. -/
def padZeros (d : ℕ) (s : String) : String :=
  String.mk (List.replicate (d - s.length) '0') ++ s

/-- JS `Number.prototype.toFixed(d)` on the idealized rational value:
round to `d` decimals, ties away from zero, keep the sign of negative
inputs. -/
def jsToFixed (d : ℕ) (q : ℚ) : String :=
  let sign := if q < 0 then "-" else ""
  let scaled : ℤ := ⌊|q| * (10 : ℚ) ^ d + 1 / 2⌋
  let ip := scaled / (10 : ℤ) ^ d
  let fp := scaled % (10 : ℤ) ^ d
  if d = 0 then sign ++ toString ip
  else sign ++ toString ip ++ "." ++ padZeros d (toString fp)

/-- JS template interpolation of a number.  Exact for integral values
(the only ones the claims render); non-integral values are shown in
fraction form where JS would print a decimal expansion. -/
def jsNumToString (q : ℚ) : String :=
  if q.den = 1 then toString q.num else toString q

/-- Lending block of `calculateRiskScore` (index.ts lines 492-497):
`if (lendingData?.positions)` — the array is truthy whenever present
(JS arrays are always truthy) — then `min(criticalCount * 25, 50)`. -/
def codeLendingComponent (lendingData : Option LendingData) : ℚ :=
  match lendingData with
  | some ld =>
    match ld.positions with
    | some ps =>
      let criticalCount := (ps.filter fun p => p.health_factor < 1.2).length
      min ((criticalCount : ℚ) * 25) 50
    | none => 0
  | none => 0

/-- LP block of `calculateRiskScore` (index.ts lines 500-502):
`if (lpData?.il_percentage && lpData.il_percentage < -5)` — truthiness of
the field is presence with a nonzero value — then
`min(Math.abs(il) * 3, 30)`. -/
def codeLpComponent (lpData : Option LpData) : ℚ :=
  match lpData with
  | some d =>
    match d.il_percentage with
    | some il => if il ≠ 0 ∧ il < -5 then min (|il| * 3) 30 else 0
    | none => 0
  | none => 0

/-- Yield block of `calculateRiskScore` (index.ts lines 505-507):
`if (yieldData?.alerts_count)` — presence with a nonzero value — then
`min(alerts_count * 5, 20)`. -/
def codeYieldComponent (yieldData : Option YieldData) : ℚ :=
  match yieldData with
  | some yd =>
    match yd.alerts_count with
    | some a => if a ≠ 0 then min (a * 5) 20 else 0
    | none => 0
  | none => 0

/-- `calculateRiskScore` (index.ts lines 488-510): the `score +=`
accumulation of the three blocks, then `Math.min(Math.round(score), 100)`
(no clamp from below). -/
def calculateRiskScore (lendingData : Option LendingData) (lpData : Option LpData)
    (yieldData : Option YieldData) : ℤ :=
  min (jsRound (codeLendingComponent lendingData + codeLpComponent lpData
    + codeYieldComponent yieldData)) 100

/-- The risk-level label of `generateSummary` (index.ts lines 520-527). -/
def riskLevelLabel (riskScore : ℤ) : String :=
  if riskScore ≥ 75 then "🚨 CRITICAL"
  else if riskScore ≥ 50 then "⚠️ HIGH"
  else if riskScore ≥ 25 then "ℹ️ MODERATE"
  else "✅ LOW"

/-- `portfolioData?.lp_positions || []`. -/
def portfolioLps (portfolioData : Option PortfolioData) : List PortfolioPos :=
  match portfolioData with
  | some pd => pd.lp_positions.getD []
  | none => []

/-- `portfolioData?.total_portfolio_value_usd || 0`. -/
def portfolioTotalValue (portfolioData : Option PortfolioData) : ℚ :=
  match portfolioData with
  | some pd => pd.total_portfolio_value_usd.getD 0
  | none => 0

/-- JS `lendingData?.total_positions > 0`. -/
def lendTotalPosPos (lendingData : Option LendingData) : Bool :=
  match lendingData with
  | some ld =>
    match ld.total_positions with
    | some t => decide (t > 0)
    | none => false
  | none => false

/-- JS `lendingData?.total_positions === 0` (strict: requires the field
to be present with value 0). -/
def lendTotalPosIsZero (lendingData : Option LendingData) : Bool :=
  match lendingData with
  | some ld =>
    match ld.total_positions with
    | some t => decide (t = 0)
    | none => false
  | none => false

/-- `lendingData.total_positions` rendered, defaulting for the guard. -/
def lendTotalPosD (lendingData : Option LendingData) : ℚ :=
  match lendingData with
  | some ld => ld.total_positions.getD 0
  | none => 0

/-- `lendingData.positions` as read inside the collateral clause (the
source reads it unguarded; an absent array there would throw in JS and is
modelled as the empty list). -/
def lendPositionsD (lendingData : Option LendingData) : List LendingPos :=
  match lendingData with
  | some ld => ld.positions.getD []
  | none => []

/-- JS `lendingData?.at_risk_count > 0`. -/
def lendAtRiskPos (lendingData : Option LendingData) : Bool :=
  match lendingData with
  | some ld =>
    match ld.at_risk_count with
    | some a => decide (a > 0)
    | none => false
  | none => false

/-- `lendingData.at_risk_count` value for rendering. -/
def lendAtRiskD (lendingData : Option LendingData) : ℚ :=
  match lendingData with
  | some ld => ld.at_risk_count.getD 0
  | none => 0

/-- JS truthiness of `lpData?.net_apr`. -/
def lpNetAprTruthy (lpData : Option LpData) : Bool :=
  match lpData with
  | some d =>
    match d.net_apr with
    | some a => decide (a ≠ 0)
    | none => false
  | none => false

/-- `lpData.net_apr` value for rendering. -/
def lpNetAprD (lpData : Option LpData) : ℚ :=
  match lpData with
  | some d => d.net_apr.getD 0
  | none => 0

/-- JS `yieldData?.pools?.length > 0`. -/
def yieldPoolsNonempty (yieldData : Option YieldData) : Bool :=
  match yieldData with
  | some yd =>
    match yd.pools with
    | some ps => decide (0 < ps.length)
    | none => false
  | none => false

/-- `yieldData.pools.length` for rendering. -/
def yieldPoolsLen (yieldData : Option YieldData) : ℕ :=
  match yieldData with
  | some yd =>
    match yd.pools with
    | some ps => ps.length
    | none => 0
  | none => 0

/-- `generateSummary` (index.ts lines 512-571), accumulating clauses with
`+=` exactly in source order. -/
def generateSummary (riskScore : ℤ) (criticalAlerts : List String)
    (lendingData : Option LendingData) (yieldData : Option YieldData)
    (lpData : Option LpData) (portfolioData : Option PortfolioData) : String :=
  let riskLevel := riskLevelLabel riskScore
  let s0 := riskLevel ++ " risk detected (score: " ++ toString riskScore ++ "/100). "
  let lpPositions := portfolioLps portfolioData
  let totalLpValue := portfolioTotalValue portfolioData
  let s1 :=
    if 0 < lpPositions.length then
      s0 ++ ("Found " ++ toString lpPositions.length ++ " LP position(s) worth $"
        ++ jsToFixed 0 totalLpValue ++ " across "
        ++ toString (lpPositions.map (fun p => p.protocol)).dedup.length ++ " DEX(es). ")
    else s0
  let s2 :=
    if lendTotalPosPos lendingData then
      s1 ++ ("$" ++ jsToFixed 0 (((lendPositionsD lendingData).map
          (fun p => p.collateral_usd)).sum) ++ " deposited across "
        ++ jsNumToString (lendTotalPosD lendingData) ++ " lending protocol(s). ")
    else s1
  let s3 :=
    if 0 < criticalAlerts.length then
      s2 ++ (toString criticalAlerts.length
        ++ " critical alert(s) require immediate attention. ")
    else s2
  let s4 :=
    if lendAtRiskPos lendingData then
      s3 ++ (jsNumToString (lendAtRiskD lendingData) ++ " position(s) at liquidation risk. ")
    else s3
  let s5 :=
    if lpNetAprTruthy lpData then
      if lpNetAprD lpData < 0 then
        s4 ++ ("LP position showing negative returns (" ++ jsToFixed 2 (lpNetAprD lpData)
          ++ "% APR). ")
      else
        s4 ++ ("LP position earning " ++ jsToFixed 2 (lpNetAprD lpData) ++ "% net APR. ")
    else s4
  let s6 :=
    if yieldPoolsNonempty yieldData then
      s5 ++ ("Found " ++ toString (yieldPoolsLen yieldData) ++ " high-yield opportunities. ")
    else s5
  if riskScore < 25 ∧ lendTotalPosIsZero lendingData = true ∧ lpPositions.length = 0 then
    s6 ++ "No active DeFi positions detected. Consider the yield opportunities shown."
  else if riskScore < 25 then
    s6 ++ "Your DeFi positions are healthy. Continue monitoring for changes."
  else s6

/-- The detected LP positions: `portfolioData?.lp_positions || []` as used
by the handler (index.ts line 634). -/
def detectedLps (ups : Upstreams) : List PortfolioPos :=
  portfolioLps ups.portfolio

/-- The LP impermanent-loss request the handler builds for the first
detected position (index.ts lines 642-667).  The validated input has no
`lp_entry_date` field (the schema strips it), so `input.lp_entry_date` is
always undefined and the default entry date, 30 days before `now`, is
taken. -/
def mkLpRequest (position : PortfolioPos) (now : ℚ) : LpRequest :=
  let entryDate := now - 30 * 24 * 60 * 60 * 1000
  let daysHeld : ℤ := ⌊(now - entryDate) / (1000 * 60 * 60 * 24)⌋
  { initial_price_0 := position.token0_price_usd
    initial_price_1 := position.token1_price_usd
    current_price_ratio := position.token0_price_usd / position.token1_price_usd
    amount_0 := position.token0_amount
    amount_1 := position.token1_amount
    fees_earned :=
      if position.fees_owed_0 ≠ 0 then
        position.fees_owed_0 * position.token0_price_usd
          + position.fees_owed_1 * position.token1_price_usd
      else 0
    days_held := (daysHeld : ℚ) }

/-- The lending-alert string (index.ts line 614). -/
def lendAlertStr (p : LendingPos) : String :=
  "🚨 " ++ p.protocol ++ " on chain " ++ jsNumToString p.chain_id
    ++ ": Health factor " ++ jsToFixed 2 p.health_factor

/-- The handler's lending-alert accumulation: `forEach` pushing one alert
per position with `health_factor < 1.2` (index.ts lines 610-618). -/
def handlerLendingAlerts (lendingData : Option LendingData) : List String :=
  match lendingData with
  | some ld =>
    match ld.positions with
    | some ps =>
      ps.foldl (fun acc p => if p.health_factor < 1.2 then acc ++ [lendAlertStr p] else acc) []
    | none => []
  | none => []

/-- The impermanent-loss alert string (index.ts line 673). -/
def ilAlertStr (position : PortfolioPos) (il : ℚ) : String :=
  "💸 " ++ position.protocol ++ ": " ++ jsToFixed 2 il
    ++ "% impermanent loss detected"

/-- The IL alert the handler pushes after the LP call:
`lpData?.il_percentage && lpData.il_percentage < -10`
(index.ts lines 671-675). -/
def ilAlertFor (position : PortfolioPos) (lpData : Option LpData) : List String :=
  match lpData with
  | some d =>
    match d.il_percentage with
    | some il => if il ≠ 0 ∧ il < -10 then [ilAlertStr position il] else []
    | none => []
  | none => []

/-- The LP-analysis phase (index.ts lines 632-678): if at least one
detected position exists, build the request from the first one, call the
LP upstream and derive the IL alert; otherwise skip.  Returns
(lp response, request issued, IL alerts). -/
def lpPhase (ups : Upstreams) (now : ℚ) : Option LpData × Option LpRequest × List String :=
  match detectedLps ups with
  | [] => (none, none, [])
  | position :: _ =>
    let req := mkLpRequest position now
    let lpData := ups.lp req
    (lpData, some req, ilAlertFor position lpData)

/-- `lpData.recommendation || "No data"` (the empty string is falsy). -/
def recommendationD (r : Option String) : String :=
  match r with
  | some s => if s = "" then "No data" else s
  | none => "No data"

/-- The entrypoint handler (index.ts lines 583-761): portfolio scan
(unconditional), lending analysis with alerts, yield analysis, conditional
LP analysis on the first detected position, optional perps and arbitrage,
then score, summary and report assembly.  `now` is the request instant in
milliseconds. -/
def handler (input : GuardianInput) (ups : Upstreams) (now : ℚ) : HandlerResult :=
  let portfolioData := ups.portfolio
  let lendingData := ups.lending
  let lendAlerts := handlerLendingAlerts lendingData
  let yieldData := ups.yieldRes
  let lp3 := lpPhase ups now
  let lpData := lp3.1
  let criticalAlerts := lendAlerts ++ lp3.2.2
  let perpsData := if input.include_perps then ups.perps else none
  let arbitrageData := if input.include_arbitrage then ups.arb else none
  let riskScore := calculateRiskScore lendingData lpData yieldData
  let summary := generateSummary riskScore criticalAlerts lendingData yieldData lpData portfolioData
  { report :=
    { wallet_address := input.wallet_address
      overall_risk_score := riskScore
      total_positions := lendTotalPosD lendingData + (yieldPoolsLen yieldData : ℚ)
      critical_alerts := criticalAlerts
      lending_analysis := lendingData.map fun ld =>
        { positions := ld.positions.getD [], at_risk_count := ld.at_risk_count.getD 0 }
      yield_analysis := yieldData.map fun yd =>
        { pools := yd.pools.getD [], alerts_count := yd.alerts_count.getD 0 }
      lp_analysis := lpData.map fun d =>
        { il_percentage := d.il_percentage.getD 0
          net_apr := d.net_apr.getD 0
          recommendation := recommendationD d.recommendation }
      perps_analysis := perpsData.map fun p => p.positions.getD []
      arbitrage_opportunities := arbitrageData.map fun a => a.opportunities.getD []
      summary := summary
      timestamp := now }
    portfolioCalled := true
    lpCall := lp3.2.1
    perpsCalled := input.include_perps
    arbitrageCalled := input.include_arbitrage }

/-- Look up a key in a JSON object's field list. -/
def jLookup (fields : List (String × JsonVal)) (k : String) : Option JsonVal :=
  (fields.find? fun p => p.1 == k).map fun p => p.2

/-- zod `z.number()` applied to a JSON value. -/
def parseNumV : JsonVal → Option ℚ
  | .num q => some q
  | _ => none

/-- zod `z.array(z.number())`. -/
def parseNumArray : JsonVal → Option (List ℚ)
  | .arr l => l.mapM parseNumV
  | _ => none

/-- zod parse of one element of `lp_positions` (all eight fields
required, type-checked only). -/
def parseLpPos : JsonVal → Option LpInputPos
  | .obj fs =>
    match jLookup fs "protocol", jLookup fs "token0_symbol", jLookup fs "token1_symbol",
      jLookup fs "token0_amount", jLookup fs "token1_amount",
      jLookup fs "initial_price0", jLookup fs "initial_price1", jLookup fs "entry_date" with
    | some (.str pr), some (.str s0), some (.str s1),
      some (.num a0), some (.num a1), some (.num p0), some (.num p1), some (.str ed) =>
      some ⟨pr, s0, s1, a0, a1, p0, p1, ed⟩
    | _, _, _, _, _, _, _, _ => none
  | _ => none

/-- `GuardianInputSchema` (index.ts lines 367-382) as a validation
function: zod checks types only (any string is accepted as
`wallet_address`, any numbers in `chain_ids`), applies the documented
defaults for missing optional fields, and strips unknown keys. -/
def parseGuardianInput : JsonVal → Option GuardianInput
  | .obj fs =>
    match jLookup fs "wallet_address" with
    | some (.str w) =>
      let cidsO : Option (List ℚ) :=
        match jLookup fs "chain_ids" with
        | none => some [1, 42161, 8453]
        | some v => parseNumArray v
      let ipO : Option Bool :=
        match jLookup fs "include_perps" with
        | none => some false
        | some (.jbool b) => some b
        | some _ => none
      let iaO : Option Bool :=
        match jLookup fs "include_arbitrage" with
        | none => some false
        | some (.jbool b) => some b
        | some _ => none
      let lpsO : Option (Option (List LpInputPos)) :=
        match jLookup fs "lp_positions" with
        | none => some none
        | some (.arr l) => (l.mapM parseLpPos).map some
        | some _ => none
      match cidsO, ipO, iaO, lpsO with
      | some cids, some ip, some ia, some lps => some ⟨w, cids, ip, ia, lps⟩
      | _, _, _, _ => none
    | _ => none
  | _ => none

/-- All upstream services Absent. -/
def allAbsent : Upstreams :=
  { portfolio := none, lending := none, yieldRes := none,
    lp := fun _ => none, perps := none, arb := none }

/- ------------------------------------------------------------------
Claim-side definitions, written from the specification's words, to be
compared with the source-side definitions above.
------------------------------------------------------------------- -/

/-- Spec 4.2 step 1: lending component — when lending positions are
present, min(count of positions with health_factor < 1.2 × 25, 50);
0 otherwise. -/
def specLendingComponent (lendingData : Option LendingData) : ℚ :=
  match lendingData with
  | some ld =>
    match ld.positions with
    | some ps => min (((ps.filter fun p => p.health_factor < 1.2).length : ℚ) * 25) 50
    | none => 0
  | none => 0

/-- Spec 4.2 step 2: LP component — if il_percentage present and < −5,
min(|il_percentage| × 3, 30); else 0. -/
def specLpComponent (lpData : Option LpData) : ℚ :=
  match lpData with
  | some d =>
    match d.il_percentage with
    | some il => if il < -5 then min (|il| * 3) 30 else 0
    | none => 0
  | none => 0

/-- Spec 4.2 step 3: yield component — if alerts_count present,
min(alerts_count × 5, 20); else 0. -/
def specYieldComponent (yieldData : Option YieldData) : ℚ :=
  match yieldData with
  | some yd =>
    match yd.alerts_count with
    | some a => min (a * 5) 20
    | none => 0
  | none => 0

/-- Spec 4.2 step 4: total = round of the sum of components, clamped to
[0, 100]. -/
def specRiskScore (lendingData : Option LendingData) (lpData : Option LpData)
    (yieldData : Option YieldData) : ℤ :=
  min (max (jsRound (specLendingComponent lendingData + specLpComponent lpData
    + specYieldComponent yieldData)) 0) 100

/-- The data-model invariant on a yield upstream result (spec §3:
alerts_count is a non-negative integer; only non-negativity is needed). -/
def yieldAlertsValid (yieldData : Option YieldData) : Prop :=
  match yieldData with
  | some yd =>
    match yd.alerts_count with
    | some a => 0 ≤ a
    | none => True
  | none => True

/-- Spec 4.3, lending part: one alert per lending position with
health_factor < 1.2, in discovery order, no de-duplication. -/
def lendingAlertsSpec (lendingData : Option LendingData) : List String :=
  match lendingData with
  | some ld =>
    match ld.positions with
    | some ps => (ps.filter fun p => p.health_factor < 1.2).map lendAlertStr
    | none => []
  | none => []

/-- Spec 4.3, LP part: for the primary (first detected) LP position,
exactly one IL alert when its analysis yields il_percentage < −10. -/
def ilAlertsSpec (ups : Upstreams) (now : ℚ) : List String :=
  match detectedLps ups with
  | [] => []
  | position :: _ =>
    match ups.lp (mkLpRequest position now) with
    | some d =>
      match d.il_percentage with
      | some il => if il < -10 then [ilAlertStr position il] else []
      | none => []
    | none => []

/-- A clause that is present exactly when its condition holds. -/
def optClause (c : Prop) [Decidable c] (s : String) : String :=
  if c then s else ""

/-- Spec 4.4: the summary as one fixed-order concatenation of the header
and the optional clauses, each appearing exactly when its data-presence
condition holds. -/
def summarySpec (riskScore : ℤ) (criticalAlerts : List String)
    (lendingData : Option LendingData) (yieldData : Option YieldData)
    (lpData : Option LpData) (portfolioData : Option PortfolioData) : String :=
  let lpPositions := portfolioLps portfolioData
  riskLevelLabel riskScore ++ " risk detected (score: " ++ toString riskScore ++ "/100). "
    ++ optClause (0 < lpPositions.length)
      ("Found " ++ toString lpPositions.length ++ " LP position(s) worth $"
        ++ jsToFixed 0 (portfolioTotalValue portfolioData) ++ " across "
        ++ toString (lpPositions.map (fun p => p.protocol)).dedup.length ++ " DEX(es). ")
    ++ optClause (lendTotalPosPos lendingData = true)
      ("$" ++ jsToFixed 0 (((lendPositionsD lendingData).map
          (fun p => p.collateral_usd)).sum) ++ " deposited across "
        ++ jsNumToString (lendTotalPosD lendingData) ++ " lending protocol(s). ")
    ++ optClause (0 < criticalAlerts.length)
      (toString criticalAlerts.length ++ " critical alert(s) require immediate attention. ")
    ++ optClause (lendAtRiskPos lendingData = true)
      (jsNumToString (lendAtRiskD lendingData) ++ " position(s) at liquidation risk. ")
    ++ optClause (lpNetAprTruthy lpData = true)
      (if lpNetAprD lpData < 0 then
        "LP position showing negative returns (" ++ jsToFixed 2 (lpNetAprD lpData) ++ "% APR). "
      else
        "LP position earning " ++ jsToFixed 2 (lpNetAprD lpData) ++ "% net APR. ")
    ++ optClause (yieldPoolsNonempty yieldData = true)
      ("Found " ++ toString (yieldPoolsLen yieldData) ++ " high-yield opportunities. ")
    ++ (if riskScore < 25 ∧ lendTotalPosIsZero lendingData = true ∧ lpPositions.length = 0 then
        "No active DeFi positions detected. Consider the yield opportunities shown."
      else if riskScore < 25 then
        "Your DeFi positions are healthy. Continue monitoring for changes."
      else "")

/-- Character-list prefix test (for stating substring facts). -/
def chPref : List Char → List Char → Bool
  | [], _ => true
  | _ :: _, [] => false
  | a :: as, b :: bs => a == b && chPref as bs

/-- Character-list contiguous-substring test. -/
def chSub (p : List Char) : List Char → Bool
  | [] => chPref p []
  | c :: rest => chPref p (c :: rest) || chSub p rest

/-- Does `s` contain `p` as a contiguous substring? -/
def strHasSub (p s : String) : Bool :=
  chSub p.data s.data

/- ------------------------------------------------------------------
Helper lemmas (shared).
------------------------------------------------------------------- -/

theorem jsRound_mono {a b : ℚ} (h : a ≤ b) : jsRound a ≤ jsRound b :=
  Int.floor_le_floor (by linarith)

theorem jsRound_nonneg {a : ℚ} (h : 0 ≤ a) : 0 ≤ jsRound a :=
  Int.le_floor.mpr (by push_cast; linarith)

theorem jsRound_zero : jsRound 0 = 0 := by
  unfold jsRound
  rw [Int.floor_eq_iff]
  constructor
  · norm_num
  · norm_num

theorem jsToFixed_two_neg15 : jsToFixed 2 (-15) = "-15.00" := by
  have h : ⌊|(-15 : ℚ)| * (10 : ℚ) ^ 2 + 1 / 2⌋ = (1500 : ℤ) := by
    rw [Int.floor_eq_iff]
    constructor
    · norm_num
    · norm_num
  unfold jsToFixed
  rw [h]
  norm_num
  decide

theorem riskScore_all_absent : calculateRiskScore none none none = 0 := by
  norm_num [calculateRiskScore, codeLendingComponent, codeLpComponent,
    codeYieldComponent, jsRound_zero, min_def]

theorem summary_all_absent : generateSummary 0 [] none none none none
    = "✅ LOW risk detected (score: 0/100). Your DeFi positions are healthy. Continue monitoring for changes." := by
  norm_num [generateSummary, riskLevelLabel, portfolioLps, portfolioTotalValue,
    lendTotalPosPos, lendTotalPosIsZero, lendAtRiskPos, lpNetAprTruthy,
    yieldPoolsNonempty, yieldPoolsLen]
  decide

theorem mapM_num_loop (cs : List ℚ) (acc : List ℚ) :
    List.mapM.loop parseNumV (cs.map JsonVal.num) acc = some (acc.reverse ++ cs) := by
  induction cs generalizing acc with
  | nil => simp [List.mapM.loop]
  | cons c cs ih => simp [List.mapM.loop, parseNumV, ih]

theorem mkLpRequest_eq (pos : PortfolioPos) (now : ℚ) :
    mkLpRequest pos now
      = ⟨pos.token0_price_usd, pos.token1_price_usd,
          pos.token0_price_usd / pos.token1_price_usd,
          pos.token0_amount, pos.token1_amount,
          (if pos.fees_owed_0 ≠ 0 then
            pos.fees_owed_0 * pos.token0_price_usd + pos.fees_owed_1 * pos.token1_price_usd
          else 0), 30⟩ := by
  simp only [mkLpRequest, LpRequest.mk.injEq, true_and, and_true]
  have h : (now - (now - 30 * 24 * 60 * 60 * 1000)) / (1000 * 60 * 60 * 24) = (30 : ℚ) := by
    rw [sub_sub_cancel]; norm_num
  rw [h]
  have h2 : ⌊(30 : ℚ)⌋ = 30 := by
    rw [Int.floor_eq_iff]
    constructor
    · norm_num
    · norm_num
  rw [h2]
  norm_num

theorem mkLpRequest_days (pos : PortfolioPos) (now : ℚ) :
    (mkLpRequest pos now).days_held = 30 := by
  rw [mkLpRequest_eq]

theorem lpPhase_indep (ups : Upstreams) (n1 n2 : ℚ) : lpPhase ups n1 = lpPhase ups n2 := by
  unfold lpPhase
  rcases hd : detectedLps ups with _ | ⟨pos, rest⟩
  · rfl
  · simp only [mkLpRequest_eq]

theorem foldl_push_eq {a b : Type} (p : a → Prop) [DecidablePred p] (g : a → b) :
    ∀ (l : List a) (acc : List b),
      l.foldl (fun A x => if p x then A ++ [g x] else A) acc
        = acc ++ (l.filter fun x => decide (p x)).map g := by
  intro l
  induction l with
  | nil => intro acc; simp
  | cons x xs ih =>
    intro acc
    by_cases h : p x
    · simp [h, ih]
    · simp [h, ih]

theorem handlerLendingAlerts_eq (ld : Option LendingData) :
    handlerLendingAlerts ld = lendingAlertsSpec ld := by
  rcases ld with _ | ⟨_ | ps, tp, ar⟩
  · rfl
  · rfl
  · simp only [handlerLendingAlerts, lendingAlertsSpec]
    have h := foldl_push_eq (fun q : LendingPos => q.health_factor < 1.2) lendAlertStr ps []
    simpa using h

theorem lpPhase_alerts_eq (ups : Upstreams) (now : ℚ) :
    (lpPhase ups now).2.2 = ilAlertsSpec ups now := by
  unfold lpPhase ilAlertsSpec
  rcases hd : detectedLps ups with _ | ⟨pos, rest⟩
  · rfl
  · rcases hl : ups.lp (mkLpRequest pos now) with _ | ⟨_ | il, na, rec⟩
    · simp [ilAlertFor, hl]
    · simp [ilAlertFor, hl]
    · simp only [ilAlertFor, hl]
      have h : (il ≠ 0 ∧ il < -10) ↔ il < -10 :=
        ⟨fun h => h.2, fun h => ⟨by intro h0; rw [h0] at h; norm_num at h, h⟩⟩
      simp [h]

theorem str_append_ite (c : Prop) [Decidable c] (s t : String) :
    (if c then s ++ t else s) = s ++ (if c then t else "") := by
  split
  · rfl
  · exact (String.append_empty s).symm

theorem str_append_ite2 (c : Prop) [Decidable c] (s t u : String) :
    (if c then s ++ t else s ++ u) = s ++ (if c then t else u) := by
  split
  · rfl
  · rfl

theorem codeLending_eq_spec (ld : Option LendingData) :
    codeLendingComponent ld = specLendingComponent ld := rfl

theorem codeLp_eq_spec (lp : Option LpData) :
    codeLpComponent lp = specLpComponent lp := by
  rcases lp with _ | ⟨il, na, rec⟩
  · rfl
  · rcases il with _ | il
    · rfl
    · have h : (il ≠ 0 ∧ il < -5) ↔ il < -5 :=
        ⟨fun h => h.2, fun h => ⟨by intro h0; rw [h0] at h; norm_num at h, h⟩⟩
      simp [codeLpComponent, specLpComponent, h]

theorem codeYield_eq_spec (yd : Option YieldData) :
    codeYieldComponent yd = specYieldComponent yd := by
  rcases yd with _ | ⟨ps, a⟩
  · rfl
  · rcases a with _ | a
    · rfl
    · by_cases h : a = 0
      · subst h; simp [codeYieldComponent, specYieldComponent]
      · simp [codeYieldComponent, specYieldComponent, h]

theorem codeLending_nonneg (ld : Option LendingData) : 0 ≤ codeLendingComponent ld := by
  rcases ld with _ | ⟨ps, tp, ar⟩
  · simp [codeLendingComponent]
  · rcases ps with _ | ps
    · simp [codeLendingComponent]
    · simp only [codeLendingComponent]
      exact le_min (by positivity) (by norm_num)

theorem codeLp_nonneg (lp : Option LpData) : 0 ≤ codeLpComponent lp := by
  rcases lp with _ | ⟨il, na, rec⟩
  · simp [codeLpComponent]
  · rcases il with _ | il
    · simp [codeLpComponent]
    · simp only [codeLpComponent]
      split
      · exact le_min (by positivity) (by norm_num)
      · exact le_refl 0

theorem codeYield_nonneg {yd : Option YieldData} (hv : yieldAlertsValid yd) :
    0 ≤ codeYieldComponent yd := by
  rcases yd with _ | ⟨ps, a⟩
  · simp [codeYieldComponent]
  · rcases a with _ | a
    · simp [codeYieldComponent]
    · have ha : 0 ≤ a := hv
      simp only [codeYieldComponent]
      split
      · exact le_min (by positivity) (by norm_num)
      · exact le_refl 0

/- ------------------------------------------------------------------
Claim theorems.
------------------------------------------------------------------- -/

/-- C1: for every combination of upstream results (the data model makes
`alerts_count` non-negative), `calculateRiskScore` returns
round(lending + lp + yield) clamped to [0, 100], with the components as
the spec states them; in particular il_percentage = −20 contributes
exactly 30 and health factors [1.0, 1.3, 1.1] contribute exactly 50. -/
theorem c1_risk_score_formula :
    (∀ (ld : Option LendingData) (lp : Option LpData) (yd : Option YieldData),
      yieldAlertsValid yd → calculateRiskScore ld lp yd = specRiskScore ld lp yd)
    ∧ specLpComponent (some ⟨some (-20), none, none⟩) = 30
    ∧ specLendingComponent (some ⟨some [⟨"aave", 1, 1, 100⟩, ⟨"compound", 1, 1.3, 50⟩,
        ⟨"aave", 42161, 1.1, 25⟩], none, none⟩) = 50 := by
  refine ⟨?_, by norm_num [specLpComponent, min_def],
    by norm_num [specLendingComponent, List.filter, min_def]⟩
  intro ld lp yd hv
  unfold calculateRiskScore specRiskScore
  rw [← codeLending_eq_spec, ← codeLp_eq_spec, ← codeYield_eq_spec]
  have h0 : 0 ≤ jsRound (codeLendingComponent ld + codeLpComponent lp
      + codeYieldComponent yd) := by
    apply jsRound_nonneg
    have h1 := codeLending_nonneg ld
    have h2 := codeLp_nonneg lp
    have h3 := codeYield_nonneg hv
    linarith
  rw [max_eq_left h0]

/-- Witness for C1's universally quantified part at a concrete input. -/
theorem c1_risk_score_formula_witness :
    yieldAlertsValid (some ⟨none, some 2⟩)
    ∧ calculateRiskScore none none (some ⟨none, some 2⟩)
      = specRiskScore none none (some ⟨none, some 2⟩) :=
  ⟨by norm_num [yieldAlertsValid],
   c1_risk_score_formula.1 none none (some ⟨none, some 2⟩) (by norm_num [yieldAlertsValid])⟩

/-- C6: the overall risk score is individually non-decreasing in (a) the
count of lending positions with health_factor < 1.2, (b) |il_percentage|
over values below −5, and (c) alerts_count, the other inputs held
fixed. -/
theorem c6_monotonicity :
    (∀ (lp : Option LpData) (yd : Option YieldData) (l1 l2 : LendingData)
        (ps1 ps2 : List LendingPos),
      l1.positions = some ps1 → l2.positions = some ps2 →
      (ps1.filter fun p => p.health_factor < 1.2).length
        ≤ (ps2.filter fun p => p.health_factor < 1.2).length →
      calculateRiskScore (some l1) lp yd ≤ calculateRiskScore (some l2) lp yd)
    ∧ (∀ (ld : Option LendingData) (yd : Option YieldData) (d1 d2 : LpData) (il1 il2 : ℚ),
      d1.il_percentage = some il1 → d2.il_percentage = some il2 →
      il1 < -5 → il2 < -5 → |il1| ≤ |il2| →
      calculateRiskScore ld (some d1) yd ≤ calculateRiskScore ld (some d2) yd)
    ∧ (∀ (ld : Option LendingData) (lp : Option LpData) (y1 y2 : YieldData) (a1 a2 : ℚ),
      y1.alerts_count = some a1 → y2.alerts_count = some a2 → a1 ≤ a2 →
      calculateRiskScore ld lp (some y1) ≤ calculateRiskScore ld lp (some y2)) := by
  refine ⟨?_, ?_, ?_⟩
  · intro lp yd l1 l2 ps1 ps2 h1 h2 hc
    unfold calculateRiskScore
    refine min_le_min (jsRound_mono ?_) le_rfl
    have hL : codeLendingComponent (some l1) ≤ codeLendingComponent (some l2) := by
      simp only [codeLendingComponent, h1, h2]
      exact min_le_min (by
        apply mul_le_mul_of_nonneg_right _ (by norm_num)
        exact_mod_cast hc) le_rfl
    linarith
  · intro ld yd d1 d2 il1 il2 h1 h2 hlt1 hlt2 habs
    unfold calculateRiskScore
    refine min_le_min (jsRound_mono ?_) le_rfl
    have hP : codeLpComponent (some d1) ≤ codeLpComponent (some d2) := by
      simp only [codeLpComponent, h1, h2]
      rw [if_pos ⟨by intro h0; rw [h0] at hlt1; norm_num at hlt1, hlt1⟩,
        if_pos ⟨by intro h0; rw [h0] at hlt2; norm_num at hlt2, hlt2⟩]
      exact min_le_min (by linarith) le_rfl
    linarith
  · intro ld lp y1 y2 a1 a2 h1 h2 ha
    unfold calculateRiskScore
    refine min_le_min (jsRound_mono ?_) le_rfl
    have hY : codeYieldComponent (some y1) ≤ codeYieldComponent (some y2) := by
      simp only [codeYieldComponent, h1, h2]
      by_cases hz1 : a1 = 0 <;> by_cases hz2 : a2 = 0
      · simp [hz1, hz2]
      · simp only [hz1, hz2]
        rw [if_neg (by simp), if_pos hz2]
        have : (0 : ℚ) ≤ a2 := by
          rcases lt_or_eq_of_le (hz1 ▸ ha) with h | h
          · exact le_of_lt h
          · exact absurd h.symm hz2
        exact le_min (by linarith) (by norm_num)
      · simp only [hz2]
        rw [if_pos hz1, if_neg (by simp)]
        have ha1 : a1 < 0 := lt_of_le_of_ne (hz2 ▸ ha) hz1
        calc min (a1 * 5) 20 ≤ a1 * 5 := min_le_left _ _
          _ ≤ 0 := by linarith
      · rw [if_pos hz1, if_pos hz2]
        exact min_le_min (by linarith) le_rfl
    linarith

/-- Witness for C6 (third conjunct) at a concrete input. -/
theorem c6_monotonicity_witness :
    (1 : ℚ) ≤ 2
    ∧ calculateRiskScore none none (some ⟨none, some 1⟩)
      ≤ calculateRiskScore none none (some ⟨none, some 2⟩) :=
  ⟨by norm_num, c6_monotonicity.2.2 none none ⟨none, some 1⟩ ⟨none, some 2⟩ 1 2 rfl rfl (by norm_num)⟩

/-- C7 counterexample: the claim quantifies over ALL numeric payload
values, but `calculateRiskScore` has no clamp from below: a yield
response with alerts_count = −10 yields a score of −50, outside
[0, 100]. -/
theorem c7_range_counterexample :
    calculateRiskScore none none (some ⟨none, some (-10)⟩) = -50
    ∧ ¬(0 ≤ calculateRiskScore none none (some ⟨none, some (-10)⟩)) := by
  have h : jsRound (-50 : ℚ) = -50 := by
    unfold jsRound; rw [Int.floor_eq_iff]; norm_num
  have e : calculateRiskScore none none (some ⟨none, some (-10)⟩) = -50 := by
    norm_num [calculateRiskScore, codeLendingComponent, codeLpComponent,
      codeYieldComponent, min_def, h]
  exact ⟨e, by rw [e]; norm_num⟩

/-- C7 amended: for every combination of present and Absent upstream
results whose payloads satisfy the data model (alerts_count
non-negative), the returned score is an integer (it is ℤ-valued by
construction: `Math.round` then `Math.min` with 100) in [0, 100]. -/
theorem c7_range_amended :
    ∀ (ld : Option LendingData) (lp : Option LpData) (yd : Option YieldData),
      yieldAlertsValid yd →
      0 ≤ calculateRiskScore ld lp yd ∧ calculateRiskScore ld lp yd ≤ 100 := by
  intro ld lp yd hv
  constructor
  · unfold calculateRiskScore
    refine le_min (jsRound_nonneg ?_) (by norm_num)
    have h1 := codeLending_nonneg ld
    have h2 := codeLp_nonneg lp
    have h3 := codeYield_nonneg hv
    linarith
  · exact min_le_right _ _

/-- Witness for C7's amended theorem at a concrete input. -/
theorem c7_range_amended_witness :
    yieldAlertsValid (some ⟨none, some 3⟩)
    ∧ (0 ≤ calculateRiskScore none none (some ⟨none, some 3⟩)
      ∧ calculateRiskScore none none (some ⟨none, some 3⟩) ≤ 100) :=
  ⟨by norm_num [yieldAlertsValid],
   c7_range_amended none none (some ⟨none, some 3⟩) (by norm_num [yieldAlertsValid])⟩

/-- C2 counterexample: with every upstream Absent the report does have
score 0, no alerts and zero positions, but its summary does NOT contain
the "no active positions" clause — the source's guard
`lendingData?.total_positions === 0` is false when `lendingData` is null,
so the "positions healthy" clause is emitted instead. -/
theorem c2_all_absent_counterexample :
    (handler ⟨"0xabc", [1, 42161, 8453], false, false, none⟩ allAbsent 0).report.overall_risk_score = 0
    ∧ (handler ⟨"0xabc", [1, 42161, 8453], false, false, none⟩ allAbsent 0).report.critical_alerts = []
    ∧ (handler ⟨"0xabc", [1, 42161, 8453], false, false, none⟩ allAbsent 0).report.total_positions = 0
    ∧ strHasSub "No active DeFi positions"
        ((handler ⟨"0xabc", [1, 42161, 8453], false, false, none⟩ allAbsent 0).report.summary) = false
    ∧ strHasSub "no active positions"
        ((handler ⟨"0xabc", [1, 42161, 8453], false, false, none⟩ allAbsent 0).report.summary) = false := by
  have h1 : (handler ⟨"0xabc", [1, 42161, 8453], false, false, none⟩ allAbsent 0).report.summary
      = generateSummary 0 [] none none none none := by
    simp [handler, allAbsent, lpPhase, detectedLps, portfolioLps, handlerLendingAlerts,
      riskScore_all_absent]
  refine ⟨?_, ?_, ?_, ?_, ?_⟩
  · simp [handler, allAbsent, lpPhase, detectedLps, portfolioLps, riskScore_all_absent]
  · simp [handler, allAbsent, lpPhase, detectedLps, portfolioLps, handlerLendingAlerts]
  · simp [handler, allAbsent, lendTotalPosD, yieldPoolsLen]
  · rw [h1, summary_all_absent]; decide
  · rw [h1, summary_all_absent]; decide

/-- C2 amended: if every upstream call returns Absent, then for any valid
request the report has overall_risk_score = 0, critical_alerts = [],
total_positions = 0, and the summary is exactly the low-risk header
followed by the "positions healthy" clause (the "no active positions"
clause would additionally require lending data present with
total_positions = 0). -/
theorem c2_all_absent_amended :
    ∀ (input : GuardianInput) (now : ℚ),
      (handler input allAbsent now).report.overall_risk_score = 0
      ∧ (handler input allAbsent now).report.critical_alerts = []
      ∧ (handler input allAbsent now).report.total_positions = 0
      ∧ (handler input allAbsent now).report.summary
        = "✅ LOW risk detected (score: 0/100). Your DeFi positions are healthy. Continue monitoring for changes." := by
  intro input now
  refine ⟨?_, ?_, ?_, ?_⟩
  · simp [handler, allAbsent, lpPhase, detectedLps, portfolioLps, riskScore_all_absent]
  · simp [handler, allAbsent, lpPhase, detectedLps, portfolioLps, handlerLendingAlerts]
  · simp [handler, allAbsent, lendTotalPosD, yieldPoolsLen]
  · have h1 : (handler input allAbsent now).report.summary
        = generateSummary 0 [] none none none none := by
      simp [handler, allAbsent, lpPhase, detectedLps, portfolioLps, handlerLendingAlerts,
        riskScore_all_absent]
    rw [h1, summary_all_absent]

/-- C3 counterexample: validation does NOT reject an empty wallet address
(the schema is `z.string()` with no format check) nor non-positive chain
ids (`z.array(z.number())` with no positivity check): both parse
successfully, so the request is not rejected before upstream calls. -/
theorem c3_validation_counterexample :
    parseGuardianInput (.obj [("wallet_address", .str "")])
      = some ⟨"", [1, 42161, 8453], false, false, none⟩
    ∧ parseGuardianInput (.obj [("wallet_address", .str "0xabc"),
        ("chain_ids", .arr [.num (-5)])])
      = some ⟨"0xabc", [-5], false, false, none⟩ :=
  ⟨rfl, rfl⟩

/-- C3 amended: requests are rejected exactly when they fail the
type-level schema — a missing or non-string wallet_address or an
ill-typed chain id list; any string wallet address (including the empty
string) together with any numeric chain ids is accepted with the
documented defaults, and every accepted request yields a report. -/
theorem c3_validation_amended :
    (∀ (w : String) (cs : List ℚ),
      parseGuardianInput (.obj [("wallet_address", .str w),
          ("chain_ids", .arr (cs.map .num))])
        = some ⟨w, cs, false, false, none⟩)
    ∧ parseGuardianInput (.obj []) = none
    ∧ parseGuardianInput (.obj [("wallet_address", .num 5)]) = none
    ∧ (∀ (w : String) (cs : List ℚ) (ups : Upstreams) (now : ℚ),
      (handler ⟨w, cs, false, false, none⟩ ups now).report.wallet_address = w) := by
  refine ⟨?_, rfl, rfl, ?_⟩
  · intro w cs
    simp [parseGuardianInput, jLookup, List.find?, parseNumArray, mapM_num_loop]
  · intro w cs ups now
    rfl

/-- C4 counterexample: discovery is NOT performed only when no explicit
LP positions are supplied — here the request supplies an explicit LP
position (with initial_price0 = 7), yet the portfolio-scan upstream is
still called, and the LP analysis uses the first DETECTED position
(token0_price_usd = 99), not the supplied one. -/
theorem c4_discovery_counterexample :
    (handler ⟨"0xabc", [1], false, false,
        some [⟨"uniswap-v3", "WETH", "USDC", 1, 2, 7, 11, "2024-01-01"⟩]⟩
      { portfolio := some ⟨some [⟨"curve", 99, 3, 5, 6, 0, 0⟩], some 0⟩, lending := none,
        yieldRes := none, lp := fun _ => none, perps := none, arb := none } 0).portfolioCalled
      = true
    ∧ (handler ⟨"0xabc", [1], false, false,
        some [⟨"uniswap-v3", "WETH", "USDC", 1, 2, 7, 11, "2024-01-01"⟩]⟩
      { portfolio := some ⟨some [⟨"curve", 99, 3, 5, 6, 0, 0⟩], some 0⟩, lending := none,
        yieldRes := none, lp := fun _ => none, perps := none, arb := none } 0).lpCall
      = some (mkLpRequest ⟨"curve", 99, 3, 5, 6, 0, 0⟩ 0)
    ∧ (mkLpRequest ⟨"curve", 99, 3, 5, 6, 0, 0⟩ 0).initial_price_0 = 99
    ∧ ¬((mkLpRequest ⟨"curve", 99, 3, 5, 6, 0, 0⟩ 0).initial_price_0 = 7) := by
  refine ⟨rfl, ?_, rfl, ?_⟩
  · simp [handler, lpPhase, detectedLps, portfolioLps]
  · norm_num [mkLpRequest_eq]

/-- C4 amended: position discovery is always performed, regardless of
whether explicit LP positions are supplied; the supplied `lp_positions`
are ignored entirely (the handler's result does not depend on them), and
the LP-IL upstream is called exactly when at least one detected position
exists, using the first detected position. -/
theorem c4_discovery_amended :
    ∀ (input : GuardianInput) (ups : Upstreams) (now : ℚ)
      (a b : Option (List LpInputPos)),
      (handler input ups now).portfolioCalled = true
      ∧ ((handler input ups now).lpCall.isSome ↔ detectedLps ups ≠ [])
      ∧ handler { input with lp_positions := a } ups now
        = handler { input with lp_positions := b } ups now := by
  intro input ups now a b
  refine ⟨rfl, ?_, rfl⟩
  rcases hd : detectedLps ups with _ | ⟨pos, rest⟩
  · simp [handler, lpPhase, hd]
  · simp [handler, lpPhase, hd]

/-- C9: on identical inputs and identical upstream responses, two runs
produce identical overall_risk_score, critical_alerts and summary, even
at different request instants (only the timestamp may differ: the LP
request is instant-independent because days_held is always 30). -/
theorem c9_determinism :
    ∀ (input : GuardianInput) (ups : Upstreams) (now1 now2 : ℚ),
      (handler input ups now1).report.overall_risk_score
        = (handler input ups now2).report.overall_risk_score
      ∧ (handler input ups now1).report.critical_alerts
        = (handler input ups now2).report.critical_alerts
      ∧ (handler input ups now1).report.summary
        = (handler input ups now2).report.summary := by
  intro input ups n1 n2
  have h : lpPhase ups n1 = lpPhase ups n2 := lpPhase_indep ups n1 n2
  refine ⟨?_, ?_, ?_⟩ <;> simp only [handler, h]

/-- C10: for every detected LP position analyzed in the discovery path,
the payload sent to the LP impermanent-loss upstream has days_held = 30
(the validated input schema has no lp_entry_date field — it is stripped
by the schema, as the second conjunct shows — so the 30-day default entry
date is always used), initial prices equal to the position's current
token prices, and current_price_ratio equal to their quotient. -/
theorem c10_lp_payload :
    (∀ (input : GuardianInput) (ups : Upstreams) (now : ℚ)
        (pos : PortfolioPos) (rest : List PortfolioPos),
      detectedLps ups = pos :: rest →
      (handler input ups now).lpCall = some (mkLpRequest pos now)
      ∧ (mkLpRequest pos now).days_held = 30
      ∧ (mkLpRequest pos now).initial_price_0 = pos.token0_price_usd
      ∧ (mkLpRequest pos now).initial_price_1 = pos.token1_price_usd
      ∧ (mkLpRequest pos now).current_price_ratio
        = pos.token0_price_usd / pos.token1_price_usd)
    ∧ parseGuardianInput (.obj [("wallet_address", .str "0xabc"),
        ("lp_entry_date", .str "2020-01-01")])
      = some ⟨"0xabc", [1, 42161, 8453], false, false, none⟩ := by
  refine ⟨?_, rfl⟩
  intro input ups now pos rest hd
  refine ⟨?_, mkLpRequest_days pos now, rfl, rfl, rfl⟩
  simp [handler, lpPhase, hd]

/-- Witness for C10's universally quantified part at a concrete input. -/
theorem c10_lp_payload_witness :
    detectedLps ⟨some ⟨some [⟨"curve", 4, 2, 1, 1, 0, 0⟩], none⟩,
        none, none, fun _ => none, none, none⟩ = [⟨"curve", 4, 2, 1, 1, 0, 0⟩]
    ∧ ((handler ⟨"0x", [1], false, false, none⟩
        ⟨some ⟨some [⟨"curve", 4, 2, 1, 1, 0, 0⟩], none⟩,
          none, none, fun _ => none, none, none⟩ 0).lpCall
        = some (mkLpRequest ⟨"curve", 4, 2, 1, 1, 0, 0⟩ 0)
      ∧ (mkLpRequest ⟨"curve", 4, 2, 1, 1, 0, 0⟩ 0).days_held = 30
      ∧ (mkLpRequest ⟨"curve", 4, 2, 1, 1, 0, 0⟩ 0).initial_price_0
        = (⟨"curve", 4, 2, 1, 1, 0, 0⟩ : PortfolioPos).token0_price_usd
      ∧ (mkLpRequest ⟨"curve", 4, 2, 1, 1, 0, 0⟩ 0).initial_price_1
        = (⟨"curve", 4, 2, 1, 1, 0, 0⟩ : PortfolioPos).token1_price_usd
      ∧ (mkLpRequest ⟨"curve", 4, 2, 1, 1, 0, 0⟩ 0).current_price_ratio
        = (⟨"curve", 4, 2, 1, 1, 0, 0⟩ : PortfolioPos).token0_price_usd
          / (⟨"curve", 4, 2, 1, 1, 0, 0⟩ : PortfolioPos).token1_price_usd) :=
  ⟨rfl, c10_lp_payload.1 ⟨"0x", [1], false, false, none⟩
    ⟨some ⟨some [⟨"curve", 4, 2, 1, 1, 0, 0⟩], none⟩,
      none, none, fun _ => none, none, none⟩ 0 ⟨"curve", 4, 2, 1, 1, 0, 0⟩ [] rfl⟩

/-- C5: critical_alerts is exactly the lending alerts (one per lending
position with health_factor < 1.2, in discovery order, no
de-duplication) followed by the IL alert, present exactly when the
primary LP position's analysis yields il_percentage < −10; in
particular exactly one IL alert at −15 and none at −9. -/
theorem c5_alert_extraction :
    (∀ (input : GuardianInput) (ups : Upstreams) (now : ℚ),
      (handler input ups now).report.critical_alerts
        = lendingAlertsSpec ups.lending ++ ilAlertsSpec ups now)
    ∧ (handler ⟨"0xabc", [1], false, false, none⟩
        ⟨some ⟨some [⟨"uniswap-v3", 2, 4, 10, 20, 0, 0⟩], some 0⟩, none, none,
          fun _ => some ⟨some (-15), none, none⟩, none, none⟩ 0).report.critical_alerts
      = ["💸 uniswap-v3: -15.00% impermanent loss detected"]
    ∧ (handler ⟨"0xabc", [1], false, false, none⟩
        ⟨some ⟨some [⟨"uniswap-v3", 2, 4, 10, 20, 0, 0⟩], some 0⟩, none, none,
          fun _ => some ⟨some (-9), none, none⟩, none, none⟩ 0).report.critical_alerts
      = [] := by
  refine ⟨?_, ?_, ?_⟩
  · intro input ups now
    simp only [handler]
    rw [handlerLendingAlerts_eq, lpPhase_alerts_eq]
  · norm_num [handler, lpPhase, detectedLps, portfolioLps, handlerLendingAlerts,
      ilAlertFor, ilAlertStr, jsToFixed_two_neg15]
    decide
  · norm_num [handler, lpPhase, detectedLps, portfolioLps, handlerLendingAlerts, ilAlertFor]

/-- C8: the summary's risk label is chosen by the four fixed score bands
([0,25) low, [25,50) moderate, [50,75) high, [75,100] critical) with
pairwise distinct labels, and the whole summary is the header followed by
the clauses in one fixed order, each present exactly when its
data-presence condition holds. -/
theorem c8_summary_bands :
    (∀ s : ℤ, 0 ≤ s → s < 25 → riskLevelLabel s = "✅ LOW")
    ∧ (∀ s : ℤ, 25 ≤ s → s < 50 → riskLevelLabel s = "ℹ️ MODERATE")
    ∧ (∀ s : ℤ, 50 ≤ s → s < 75 → riskLevelLabel s = "⚠️ HIGH")
    ∧ (∀ s : ℤ, 75 ≤ s → s ≤ 100 → riskLevelLabel s = "🚨 CRITICAL")
    ∧ ("✅ LOW" ≠ "ℹ️ MODERATE" ∧ "✅ LOW" ≠ "⚠️ HIGH" ∧ "✅ LOW" ≠ "🚨 CRITICAL"
      ∧ "ℹ️ MODERATE" ≠ "⚠️ HIGH" ∧ "ℹ️ MODERATE" ≠ "🚨 CRITICAL"
      ∧ "⚠️ HIGH" ≠ "🚨 CRITICAL")
    ∧ (∀ (rs : ℤ) (ca : List String) (ld : Option LendingData) (yd : Option YieldData)
        (lpd : Option LpData) (pd : Option PortfolioData),
      generateSummary rs ca ld yd lpd pd = summarySpec rs ca ld yd lpd pd) := by
  refine ⟨?_, ?_, ?_, ?_, by decide, ?_⟩
  · intro s h1 h2
    unfold riskLevelLabel
    rw [if_neg (by omega), if_neg (by omega), if_neg (by omega)]
  · intro s h1 h2
    unfold riskLevelLabel
    rw [if_neg (by omega), if_neg (by omega), if_pos (by omega)]
  · intro s h1 h2
    unfold riskLevelLabel
    rw [if_neg (by omega), if_pos (by omega)]
  · intro s h1 h2
    unfold riskLevelLabel
    rw [if_pos (by omega)]
  · intro rs ca ld yd lpd pd
    simp only [generateSummary, summarySpec, optClause]
    simp only [str_append_ite2, str_append_ite]

/-- Witness for C8's band conjuncts at concrete scores. -/
theorem c8_summary_bands_witness :
    ((0 : ℤ) ≤ 10 ∧ (10 : ℤ) < 25 ∧ riskLevelLabel 10 = "✅ LOW")
    ∧ ((75 : ℤ) ≤ 90 ∧ (90 : ℤ) ≤ 100 ∧ riskLevelLabel 90 = "🚨 CRITICAL") :=
  ⟨⟨by norm_num, by norm_num, c8_summary_bands.1 10 (by norm_num) (by norm_num)⟩,
   ⟨by norm_num, by norm_num, c8_summary_bands.2.2.2.1 90 (by norm_num) (by norm_num)⟩⟩

end Guardian
